import Mathlib

/-!
Verification of the bridging header `libobs-metal/libobs-metal-Bridging-Header.h`.

The header consists of nine `#import` directives and two `static const char *`
string constants. We embed the file as a list of declarations: each declaration
is either an import directive (carrying its header path) or a constant binding
(carrying the constant name and its C initializer expression). A C initializer
for a `static const char *` is either a string literal or a reference to an
identifier; in this file both constants are initialized with string literals.
-/

/-- A C initializer expression for a string constant: either a string literal,
or a reference to another identifier (e.g. something declared in an imported
header). In the source file, both initializers are string literals. -/
inductive CInitializer where
  | lit (s : String)
  | ref (ident : String)
  deriving DecidableEq, Repr

/-- A top-level declaration of the bridging header: an `#import` directive with
its header path, or a `static const char *` constant with its name and
initializer. The source file contains no other kind of declaration. -/
inductive HeaderDecl where
  | importDirective (path : String)
  | constDecl (nm : String) (init : CInitializer)
  deriving DecidableEq, Repr

/-- Value of the constant `device_name` (line 19 of the header). -/
def device_name : String := "Metal"

/-- Value of the constant `preprocessor_name` (line 20 of the header). -/
def preprocessor_name : String := "_Metal"

/-- The bridging header, declaration by declaration, in source order
(lines 8 through 20). -/
def bridgingHeader : List HeaderDecl :=
  [ .importDirective "util/base.h",
    .importDirective "util/cf-parser.h",
    .importDirective "util/cf-lexer.h",
    .importDirective "graphics/graphics.h",
    .importDirective "graphics/device-exports.h",
    .importDirective "graphics/vec2.h",
    .importDirective "graphics/matrix3.h",
    .importDirective "graphics/matrix4.h",
    .importDirective "graphics/shader-parser.h",
    .constDecl "device_name" (.lit device_name),
    .constDecl "preprocessor_name" (.lit preprocessor_name) ]

/-- The header paths imported by the bridging header, in source order. -/
def headerImports : List String :=
  bridgingHeader.filterMap fun d =>
    match d with
    | .importDirective p => some p
    | .constDecl _ _ => none

/-- The constant bindings of the bridging header: name paired with
initializer, in source order. -/
def constDecls : List (String × CInitializer) :=
  bridgingHeader.filterMap fun d =>
    match d with
    | .importDirective _ => none
    | .constDecl n v => some (n, v)

/-- Look up the initializer of a named constant of the header. -/
def lookupConst (n : String) : Option CInitializer :=
  (constDecls.find? fun p => p.1 == n).map Prod.snd

/-- The observable state of the program: the values bound to the two
constants. No declaration of the header introduces any further state. -/
structure ProgramState where
  device_name_val : String
  preprocessor_name_val : String
  deriving DecidableEq, Repr

/-- The initial state: the constants hold their declared initial values. -/
def initState : ProgramState :=
  { device_name_val := device_name, preprocessor_name_val := preprocessor_name }

/-- Operations contributed by a single declaration of the header. Neither
an import directive nor a constant declaration defines a function or any
other state-transforming operation, so each contributes none. -/
def declOperations : HeaderDecl → List (ProgramState → ProgramState)
  | .importDirective _ => []
  | .constDecl _ _ => []

/-- All state-transforming operations defined by the bridging header. -/
def headerOperations : List (ProgramState → ProgramState) :=
  (bridgingHeader.map declOperations).flatten

/-- Fallible operations contributed by a single declaration: operations whose
result is an error branch or a success branch. No declaration of the header
defines any. -/
def declFallibleOps : HeaderDecl → List (ProgramState → Except String ProgramState)
  | .importDirective _ => []
  | .constDecl _ _ => []

/-- All fallible operations defined by the bridging header. -/
def fallibleOperations : List (ProgramState → Except String ProgramState) :=
  (bridgingHeader.map declFallibleOps).flatten

/-- A state is reachable when it is the initial state or arises from a
reachable state by one of the operations the header defines. -/
inductive Reachable : ProgramState → Prop where
  | init : Reachable initState
  | step (s : ProgramState) (hs : Reachable s) (op : ProgramState → ProgramState)
      (hop : op ∈ headerOperations) : Reachable (op s)

/-- Whether a C initializer depends on the contents of an imported header:
a literal depends on nothing, while an identifier reference would. -/
def initializerDependsOnImports : CInitializer → Bool
  | .lit _ => false
  | .ref _ => true

theorem headerOperations_eq_nil : headerOperations = [] := rfl

/-- C1: the constant named device_name is declared in the header with the
string literal "Metal" as its initializer, and its value is "Metal". -/
theorem device_name_is_Metal :
    lookupConst "device_name" = some (.lit "Metal") ∧ device_name = "Metal" :=
  ⟨rfl, rfl⟩

/-- C2: the constant named preprocessor_name is declared in the header with
the string literal "_Metal" as its initializer, and its value is "_Metal". -/
theorem preprocessor_name_is_underscore_Metal :
    lookupConst "preprocessor_name" = some (.lit "_Metal") ∧
      preprocessor_name = "_Metal" :=
  ⟨rfl, rfl⟩

/-- C3: the observable content of the header is exactly the two constant
bindings device_name and preprocessor_name; the header defines no function or
state-transforming operation. -/
theorem header_defines_only_two_constants :
    constDecls =
      [("device_name", .lit "Metal"), ("preprocessor_name", .lit "_Metal")] ∧
      headerOperations = [] :=
  ⟨rfl, rfl⟩

/-- C4: immutability. Every reachable state of the program binds device_name
to "Metal" and preprocessor_name to "_Metal", unchanged from the initial
values. -/
theorem constants_immutable (s : ProgramState) (hs : Reachable s) :
    s.device_name_val = "Metal" ∧ s.preprocessor_name_val = "_Metal" := by
  induction hs with
  | init => exact ⟨rfl, rfl⟩
  | step t _ op hop _ =>
      rw [headerOperations_eq_nil] at hop
      exact absurd hop (List.not_mem_nil op)

/-- Witness for C4: the initial state is reachable and the theorem applies
to it. -/
theorem constants_immutable_witness :
    Reachable initState ∧
      initState.device_name_val = "Metal" ∧
        initState.preprocessor_name_val = "_Metal" :=
  ⟨Reachable.init, constants_immutable initState Reachable.init⟩

/-- C5: the header defines no fallible operation: the list of operations that
could return an error value is empty. -/
theorem no_fallible_operations : fallibleOperations = [] := rfl

/-- C6: the header imports exactly the nine listed headers, and every constant
it defines is initialized with a plain string literal, depending on nothing
from the imported headers. -/
theorem imports_exactly_nine_and_independent :
    headerImports =
      [ "util/base.h", "util/cf-parser.h", "util/cf-lexer.h",
        "graphics/graphics.h", "graphics/device-exports.h", "graphics/vec2.h",
        "graphics/matrix3.h", "graphics/matrix4.h",
        "graphics/shader-parser.h" ] ∧
      (constDecls.all fun p => !(initializerDependsOnImports p.2)) = true :=
  ⟨rfl, rfl⟩

/-- C7: the value of preprocessor_name is the underscore character prepended
to the value of device_name. -/
theorem preprocessor_name_eq_underscore_append_device_name :
    preprocessor_name = "_" ++ device_name := rfl

/-- C8: both constants are non-empty strings and their values are distinct. -/
theorem constants_nonempty_and_distinct :
    device_name ≠ "" ∧ preprocessor_name ≠ "" ∧
      device_name ≠ preprocessor_name := by
  refine ⟨?_, ?_, ?_⟩ <;> decide
